import Mathlib

/-!
# Verification of the MFHelper fund scoring engine

Shallow embedding of the numeric core of `mf_screener.py` and
`daily_mf_report.py` (NAV-history sanitation, rolling CAGR windows,
beta, benchmark outperformance, score normalization and ranking, and the
per-scheme daily pipeline), together with theorems settling the frozen
claims about the specification.

Modelling conventions:
* A calendar date is its day number (days since 1970-01-01) as an `ℤ`.
  `pandas.DateOffset(years=n)` is embedded by converting to a civil
  (proleptic Gregorian) date, shifting the year and clamping the day to
  the target month's length (pandas behaviour, e.g. Feb 29 + 1 year =
  Feb 28), then converting back.
* A NAV series is a `List (ℤ × ℚ)` of (date, price) points; float
  arithmetic is modelled by exact `ℚ`/`ℝ` arithmetic.  The float power
  `x ** y` is `Real.rpow`.
* `pandas.sort_values`/`sort_index` (ascending) is embedded as a stable
  insertion sort on the key; `sort_values(ascending=False)` follows the
  shape of the pandas `nargsort` implementation: reverse the rows, sort
  ascending, reverse the result.  The model's base sort is a stable
  insertion sort, which agrees with the program's numpy introsort on
  sortedness and on the multiset of rows, but NOT on the order of tied
  keys: numpy's default introsort is stable only below its small-array
  insertion-sort threshold (about 16 elements), and the screener's
  default batch is up to 50 rows.  The model therefore supports no
  tie-order conclusion about the program (see the C1 failing-input
  theorem).
* A fetch that may raise is a value of `Except Unit (Option NavData)`;
  `pd.to_numeric(errors="coerce")` yields an `Option ℚ` per row.
-/

namespace MFHelper

/-! ## Civil calendar arithmetic (day numbers since 1970-01-01) -/

/-- Day number of a civil date (proleptic Gregorian), the standard
"days from civil" computation used by datetime libraries. -/
def daysFromCivil (y m d : ℤ) : ℤ :=
  let y' := if m ≤ 2 then y - 1 else y
  let era := Int.fdiv y' 400
  let yoe := y' - era * 400
  let mp := Int.emod (m + 9) 12
  let doy := Int.fdiv (153 * mp + 2) 5 + d - 1
  let doe := yoe * 365 + Int.fdiv yoe 4 - Int.fdiv yoe 100 + doy
  era * 146097 + doe - 719468

/-- Civil date (year, month, day) of a day number; inverse of
`daysFromCivil`. -/
def civilFromDays (z : ℤ) : ℤ × ℤ × ℤ :=
  let z' := z + 719468
  let era := Int.fdiv z' 146097
  let doe := z' - era * 146097
  let yoe := Int.fdiv (doe - Int.fdiv doe 1460 + Int.fdiv doe 36524 - Int.fdiv doe 146096) 365
  let y := yoe + era * 400
  let doy := doe - (365 * yoe + Int.fdiv yoe 4 - Int.fdiv yoe 100)
  let mp := Int.fdiv (5 * doy + 2) 153
  let d := doy - Int.fdiv (153 * mp + 2) 5 + 1
  let m := mp + (if mp < 10 then 3 else -9)
  (if m ≤ 2 then y + 1 else y, m, d)

def isLeapYear (y : ℤ) : Bool :=
  (Int.emod y 4 == 0 && Int.emod y 100 != 0) || Int.emod y 400 == 0

def daysInMonth (y m : ℤ) : ℤ :=
  if m = 2 then (if isLeapYear y then 29 else 28)
  else if m = 4 ∨ m = 6 ∨ m = 9 ∨ m = 11 then 30
  else 31

/-- `addYears z n` embeds `timestamp + pd.DateOffset(years=n)` on day
number `z`: shift the civil year by `n`, clamping the day-of-month. -/
def addYears (z n : ℤ) : ℤ :=
  let c := civilFromDays z
  let y := c.1 + n
  let m := c.2.1
  daysFromCivil y m (min c.2.2 (daysInMonth y m))

/-- Calendar months between two dates, rounded up by the day-of-month
rule of `process_scheme`:
`(ey - sy) * 12 + (em - sm)`, plus one when the end day-of-month exceeds
the start day-of-month. -/
def monthsBetween (s e : ℤ) : ℤ :=
  let cs := civilFromDays s
  let ce := civilFromDays e
  let m := (ce.1 - cs.1) * 12 + (ce.2.1 - cs.2.1)
  if cs.2.2 < ce.2.2 then m + 1 else m

/-! ## Stable sorting (pandas `sort_values` / `sort_index`) -/

/-- `sort_index()` / `sort_values("date")` ascending on a (date, nav)
series: stable sort by date. -/
def sortByDate (l : List (ℤ × ℚ)) : List (ℤ × ℚ) :=
  List.insertionSort (fun a b => a.1 ≤ b.1) l

/-- Model of `sort_values(key, ascending=False)` following the shape of
pandas `nargsort`: reverse the rows, sort ascending by the key, reverse
the result.  The base sort here is a stable insertion sort; the
program's base sort is numpy's default introsort (`kind="quicksort"`),
which is unstable above its ~16-element insertion-sort threshold, so
this model is faithful to the program only in its sortedness and its
multiset of rows, not in the relative order of tied keys. -/
def sortValuesDesc {α : Type} (key : α → ℚ) (l : List α) : List α :=
  (List.insertionSort (fun a b => key a ≤ key b) l.reverse).reverse

/-! ## TimeSeriesSanitizer -/

/-- `pd.to_numeric(errors="coerce")` followed by `dropna`: keep the rows
whose price parsed. -/
def parseRows (raw : List (ℤ × Option ℚ)) : List (ℤ × ℚ) :=
  raw.filterMap (fun r => r.2.map (fun v => (r.1, v)))

/-- NAV sanitation of `mf_screener.fetch_full_nav_history`: coerce
prices dropping unparseable rows, drop prices ≤ 0, sort ascending by
date, then keep dates on or after `now - lookback_years * 365` days.
(The screener applies no upper bound on the date.) -/
def sanitizeScreener (raw : List (ℤ × Option ℚ)) (asOf lookbackYears : ℤ) : List (ℤ × ℚ) :=
  let navs := (parseRows raw).filter (fun p => decide (0 < p.2))
  let sorted := sortByDate navs
  let cutoff := asOf - lookbackYears * 365
  sorted.filter (fun p => decide (cutoff ≤ p.1))

/-- NAV sanitation of `daily_mf_report.fetch_nav_history`: coerce and
drop bad prices, keep dates in `[as_of - DateOffset(years=1), as_of]`,
then sort ascending by date. -/
def sanitizeDaily (raw : List (ℤ × Option ℚ)) (asOf : ℤ) : List (ℤ × ℚ) :=
  let navs := (parseRows raw).filter (fun p => decide (0 < p.2))
  let startBoundary := addYears asOf (-1)
  let windowed := navs.filter (fun p => decide (startBoundary ≤ p.1) && decide (p.1 ≤ asOf))
  sortByDate windowed

/-! ## ReturnCalculator: rolling CAGR windows
(`mf_screener.calculate_rolling_returns`) -/

/-- The `for i in range(len(dates))` loop of `calculate_rolling_returns`
over the sorted series `all`, restricted to the remaining suffix of
start points.  Each step finds the first observation at or after
`start + DateOffset(years=w)`:
* no such observation → `break` (`[]`, later starts are not scanned);
* `start_nav <= 0` or elapsed days `< 300` → `continue`;
* otherwise record the accepted window `(start_nav, end_nav, days)`. -/
def rollingLoop (all : List (ℤ × ℚ)) (w : ℤ) : List (ℤ × ℚ) → List (ℚ × ℚ × ℤ)
  | [] => []
  | p :: rest =>
    match all.filter (fun q => decide (addYears p.1 w ≤ q.1)) with
    | [] => []
    | f :: _ =>
      if p.2 ≤ 0 then rollingLoop all w rest
      else if f.1 - p.1 < 300 then rollingLoop all w rest
      else (p.2, f.2, f.1 - p.1) :: rollingLoop all w rest

/-- Accepted rolling windows `(start_nav, end_nav, elapsed_days)` of
`calculate_rolling_returns` (the series is sorted by date first, as
`set_index("date").sort_index()` does). -/
def rollingWindows (navs : List (ℤ × ℚ)) (w : ℤ) : List (ℚ × ℚ × ℤ) :=
  rollingLoop (sortByDate navs) w (sortByDate navs)

/-- CAGR of one window: `(end_nav / start_nav) ** (1 / years) - 1` with
`years = actual_days / 365.25`, float power embedded as `Real.rpow`. -/
noncomputable def cagrOf (startNav endNav : ℚ) (days : ℤ) : ℝ :=
  ((endNav : ℝ) / (startNav : ℝ)) ^ ((1 : ℝ) / ((days : ℝ) / 365.25)) - 1

/-- The list `rolling_cagrs` built by `calculate_rolling_returns`. -/
noncomputable def rollingCagrList (navs : List (ℤ × ℚ)) (w : ℤ) : List ℝ :=
  (rollingWindows navs w).map (fun t => cagrOf t.1 t.2.1 t.2.2)

/-- `numpy.mean` (0 on the empty list, where numpy yields NaN; the code
only applies it to nonempty sample lists). -/
noncomputable def meanR (xs : List ℝ) : ℝ := xs.sum / xs.length

/-- `numpy.std` (population standard deviation, `ddof=0`). -/
noncomputable def stdR (xs : List ℝ) : ℝ :=
  Real.sqrt ((xs.map (fun x => (x - meanR xs) ^ 2)).sum / xs.length)

/-- `calculate_rolling_returns`: `(mean, std, consistency)` of the
accepted rolling CAGR samples, or `(0, 0, 0)` when no window was
accepted.  Consistency is `max(0, min(1, 1 - std/mean))` when the mean
is positive, else `0`. -/
noncomputable def calculate_rolling_returns (navs : List (ℤ × ℚ)) (w : ℤ) : ℝ × ℝ × ℝ :=
  let cagrs := rollingCagrList navs w
  if cagrs.isEmpty then (0, 0, 0)
  else
    let m := meanR cagrs
    let s := stdR cagrs
    (m, s, if 0 < m then max 0 (min 1 (1 - s / m)) else 0)

/-! ## RiskMetrics: beta (`mf_screener.calculate_beta`) -/

/-- Inner join of two monthly-return series on their dates
(`pd.DataFrame({"fund": .., "bench": ..}).dropna()`): for each fund
point, in date order, the benchmark value at the same date if any. -/
def alignedPairs (fund bench : List (ℤ × ℚ)) : List (ℚ × ℚ) :=
  (sortByDate fund).filterMap
    (fun p => (bench.find? (fun q => q.1 == p.1)).map (fun q => (p.2, q.2)))

def meanQ (xs : List ℚ) : ℚ := xs.sum / xs.length

/-- Sample covariance (`numpy.cov`, default `ddof=1`). -/
def sampleCov (ps : List (ℚ × ℚ)) : ℚ :=
  let mx := meanQ (ps.map (fun p => p.1))
  let my := meanQ (ps.map (fun p => p.2))
  ((ps.map (fun p => (p.1 - mx) * (p.2 - my))).sum) / ((ps.length : ℚ) - 1)

/-- Sample variance (`numpy.cov` diagonal, `ddof=1`). -/
def sampleVar (xs : List ℚ) : ℚ :=
  ((xs.map (fun x => (x - meanQ xs) ^ 2)).sum) / ((xs.length : ℚ) - 1)

/-- `calculate_beta`: default `1.0` with fewer than 12 aligned points or
zero benchmark variance, otherwise `Cov(fund, bench) / Var(bench)`. -/
def calculate_beta (fund bench : List (ℤ × ℚ)) : ℚ :=
  let aligned := alignedPairs fund bench
  if aligned.length < 12 then 1
  else
    let varBench := sampleVar (aligned.map (fun p => p.2))
    if varBench = 0 then 1
    else sampleCov aligned / varBench

/-! ## BenchmarkComparator
(`mf_screener.calculate_benchmark_outperformance`) -/

/-- One accepted comparison window: fund start/end NAV, benchmark
start/end NAV and the fund's elapsed days. -/
structure OutperfWindow where
  fundStart : ℚ
  fundEnd : ℚ
  benchStart : ℚ
  benchEnd : ℚ
  days : ℤ
  deriving DecidableEq

/-- The fund beat the benchmark on this window: both CAGRs are
annualized with the fund's elapsed days. -/
noncomputable def outperfWin (t : OutperfWindow) : Prop :=
  cagrOf t.fundStart t.fundEnd t.days > cagrOf t.benchStart t.benchEnd t.days

noncomputable instance (t : OutperfWindow) : Decidable (outperfWin t) :=
  Classical.propDecidable _

/-- The `for i in range(len(fund_dates))` loop of
`calculate_benchmark_outperformance` on the remaining suffix of fund
start points, returning `(wins, total)`:
* fund future, benchmark future or benchmark start empty → `break`;
* `fund_start_val <= 0 or b_start <= 0`, or elapsed days `< 300` →
  `continue`;
* otherwise count the window, and a win when the fund CAGR exceeds the
  benchmark CAGR over the same window dates. -/
noncomputable def outperfLoop (fund bench : List (ℤ × ℚ)) (w : ℤ) :
    List (ℤ × ℚ) → ℕ × ℕ
  | [] => (0, 0)
  | p :: rest =>
    match fund.filter (fun q => decide (addYears p.1 w ≤ q.1)),
          bench.filter (fun q => decide (addYears p.1 w ≤ q.1)),
          bench.filter (fun q => decide (p.1 ≤ q.1)) with
    | ff :: _, bf :: _, bs :: _ =>
      if p.2 ≤ 0 ∨ bs.2 ≤ 0 then outperfLoop fund bench w rest
      else if ff.1 - p.1 < 300 then outperfLoop fund bench w rest
      else
        let acc := outperfLoop fund bench w rest
        if outperfWin ⟨p.2, ff.2, bs.2, bf.2, ff.1 - p.1⟩ then (acc.1 + 1, acc.2 + 1)
        else (acc.1, acc.2 + 1)
    | _, _, _ => (0, 0)

/-- `calculate_benchmark_outperformance`: sort both series by date, scan
the fund's dates as window starts, and return `wins / total`, or the
neutral `0.5` when no window qualified. -/
noncomputable def calculate_benchmark_outperformance
    (fundRaw benchRaw : List (ℤ × ℚ)) (w : ℤ) : ℚ :=
  let fund := sortByDate fundRaw
  let bench := sortByDate benchRaw
  let acc := outperfLoop fund bench w fund
  if acc.2 = 0 then 1 / 2 else (acc.1 : ℚ) / (acc.2 : ℚ)

/-! ### Specification-side formulation of §4.4
(`outperformance_fraction`), for the refinement theorem of claim C2. -/

/-- A fund start point still has a closing observation: the fund's and
the benchmark's series each contain a point at or after
`start + window_years`, and the benchmark contains a point at or after
`start` (otherwise the walk stops). -/
def closingB (fund bench : List (ℤ × ℚ)) (w : ℤ) (p : ℤ × ℚ) : Bool :=
  !(fund.filter (fun q => decide (addYears p.1 w ≤ q.1))).isEmpty
    && !(bench.filter (fun q => decide (addYears p.1 w ≤ q.1))).isEmpty
    && !(bench.filter (fun q => decide (p.1 ≤ q.1))).isEmpty

/-- The window opened at fund start `p`, if `p` passes the acceptance
guards of §4.2/§4.4: positive start NAVs and at least 300 elapsed days
to the first fund observation at or after `start + window_years`;
a rejected start yields `none` (skipped, the scan continues). -/
def acceptWindow (fund bench : List (ℤ × ℚ)) (w : ℤ) (p : ℤ × ℚ) :
    Option OutperfWindow :=
  match fund.filter (fun q => decide (addYears p.1 w ≤ q.1)),
        bench.filter (fun q => decide (addYears p.1 w ≤ q.1)),
        bench.filter (fun q => decide (p.1 ≤ q.1)) with
  | ff :: _, bf :: _, bs :: _ =>
    if p.2 ≤ 0 ∨ bs.2 ≤ 0 then none
    else if ff.1 - p.1 < 300 then none
    else some ⟨p.2, ff.2, bs.2, bf.2, ff.1 - p.1⟩
  | _, _, _ => none

/-- §4.4 as the spec words it: walk the fund's (sorted) price series as
window starts while windows can still close, keep the accepted windows
(same 300-day minimum-elapsed guard as rolling CAGR; a rejected start is
skipped but later starts are still scanned). -/
def specOutperfWindows (fundRaw benchRaw : List (ℤ × ℚ)) (w : ℤ) :
    List OutperfWindow :=
  let fund := sortByDate fundRaw
  let bench := sortByDate benchRaw
  (fund.takeWhile (closingB fund bench w)).filterMap (acceptWindow fund bench w)

/-- §4.4 `outperformance_fraction` per the spec: wins over total among
the qualifying windows, comparing fund CAGR to benchmark CAGR over the
same window; a neutral `0.5` when no window qualifies. -/
noncomputable def spec_outperformance_fraction
    (fundRaw benchRaw : List (ℤ × ℚ)) (w : ℤ) : ℚ :=
  let ws := specOutperfWindows fundRaw benchRaw w
  if ws.isEmpty then 1 / 2
  else ((ws.countP (fun t => decide (outperfWin t))) : ℚ) / (ws.length : ℚ)

/-! ## ScoreNormalizer (`mf_screener.normalize_column`,
`DEFAULT_WEIGHTS`, `calculate_final_score`) -/

/-- The scoring-weight table (`DEFAULT_WEIGHTS`). -/
structure Weights where
  rolling_consistency : ℚ
  sharpe : ℚ
  upside_capture : ℚ
  downside_capture : ℚ
  benchmark_outperf : ℚ
  beta_stability : ℚ
  ter : ℚ

def DEFAULT_WEIGHTS : Weights :=
  { rolling_consistency := 0.25
    sharpe := 0.20
    upside_capture := 0.15
    downside_capture := 0.15
    benchmark_outperf := 0.10
    beta_stability := 0.05
    ter := 0.10 }

/-- One fund's metric row as fed to `calculate_final_score`; `idx` is
the row's identity (its pre-sort position in the batch). -/
structure MetricRow where
  idx : ℕ
  rolling_consistency : ℚ
  sharpe : ℚ
  upside_capture : ℚ
  downside_capture : ℚ
  benchmark_outperf : ℚ
  beta_stability : ℚ
  ter : ℚ
  deriving DecidableEq

def colMin (xs : List ℚ) : ℚ :=
  match xs with
  | [] => 0
  | x :: t => t.foldl min x

def colMax (xs : List ℚ) : ℚ :=
  match xs with
  | [] => 0
  | x :: t => t.foldl max x

/-- `normalize_column` applied to one value `v` of a column with batch
minimum `mn` and maximum `mx`: every value maps to `0.5` on a constant
column, otherwise min-max scaling, flipped when `invert`. -/
def normVal (mn mx v : ℚ) (invert : Bool) : ℚ :=
  if mx = mn then 1 / 2
  else
    let normed := (v - mn) / (mx - mn)
    if invert then 1 - normed else normed

/-- The weighted composite score of `calculate_final_score`, over the
seven normalized sub-metrics. -/
def finalScore (w : Weights) (nCons nSharpe nUp nDown nBench nBeta nTer : ℚ) : ℚ :=
  w.rolling_consistency * nCons + w.sharpe * nSharpe + w.upside_capture * nUp
    + w.downside_capture * nDown + w.benchmark_outperf * nBench
    + w.beta_stability * nBeta + w.ter * nTer

/-- The normalization-and-scoring phase of `calculate_final_score`:
each row is paired with its composite `final_score`, where the min/max
of every metric column are taken over the whole batch (downside capture
and TER are inverted: lower is better). -/
def scoredRows (w : Weights) (rows : List MetricRow) : List (MetricRow × ℚ) :=
  let cCons := rows.map (fun r => r.rolling_consistency)
  let cSharpe := rows.map (fun r => r.sharpe)
  let cUp := rows.map (fun r => r.upside_capture)
  let cDown := rows.map (fun r => r.downside_capture)
  let cBench := rows.map (fun r => r.benchmark_outperf)
  let cBeta := rows.map (fun r => r.beta_stability)
  let cTer := rows.map (fun r => r.ter)
  rows.map (fun r =>
    (r, finalScore w
      (normVal (colMin cCons) (colMax cCons) r.rolling_consistency false)
      (normVal (colMin cSharpe) (colMax cSharpe) r.sharpe false)
      (normVal (colMin cUp) (colMax cUp) r.upside_capture false)
      (normVal (colMin cDown) (colMax cDown) r.downside_capture true)
      (normVal (colMin cBench) (colMax cBench) r.benchmark_outperf false)
      (normVal (colMin cBeta) (colMax cBeta) r.beta_stability false)
      (normVal (colMin cTer) (colMax cTer) r.ter true)))

/-- `calculate_final_score` with the default weights: score every row,
then `sort_values("final_score", ascending=False)`. -/
def calculate_final_score (rows : List MetricRow) : List (MetricRow × ℚ) :=
  sortValuesDesc (fun p => p.2) (scoredRows DEFAULT_WEIGHTS rows)

/-! ## Daily pipeline (`daily_mf_report.process_scheme` and the
batch collection loop of `daily_mf_report.main`) -/

structure SchemeInfo where
  schemeCode : ℕ
  schemeName : String

/-- The metadata fields of a fetched NAV payload that `process_scheme`
reads (each may be absent). -/
structure NavMeta where
  isin_growth : Option String
  isin_div_reinvestment : Option String
  fund_house : Option String
  scheme_type : Option String
  scheme_category : Option String

/-- The summary `fetch_nav_history` returns for a scheme with data in
the one-year window: metadata plus oldest/latest date and NAV. -/
structure NavData where
  meta : NavMeta
  start_date : ℤ
  start_nav : ℚ
  end_date : ℤ
  end_nav : ℚ

/-- A per-scheme result row of `process_scheme` (Kuvera detail-page
links are omitted: the claims run the pipeline without a Kuvera
client). -/
structure DailyRow where
  schemeCode : ℕ
  schemeName : String
  xirr : Option ℝ
  months : ℤ
  isin_growth : Option String
  isin_div_reinvestment : Option String
  latest_nav : ℚ
  latest_nav_date : ℤ
  prev_year_nav : ℚ
  prev_year_nav_date : ℤ

/-- Python `str.lower()` (character-wise lowering, as `String.toLower`
does; spelled out on the character list so that proofs can evaluate
it). -/
def strToLower (s : String) : String :=
  ⟨s.data.map Char.toLower⟩

/-- Python `needle in hay` on strings: substring containment. -/
def containsSub (needle hay : String) : Bool :=
  decide (needle.data <:+: hay.data)

/-- The IDCW filter of `process_scheme`: the lower-cased scheme name
contains `"idcw"` or `"income distribution"`. -/
def nameBad (name : String) : Bool :=
  containsSub "idcw" (strToLower name) || containsSub "income distribution" (strToLower name)

/-- Python falsiness of an optional ISIN string (`not isin`): absent or
empty. -/
def isinFalsy (o : Option String) : Bool :=
  o.getD "" == ""

/-- `compute_lumpsum_xirr`: `None` for a non-positive elapsed span,
otherwise the annualized single-period return
`(end_nav / start_nav) ** (1 / years) - 1` with
`years = days / 365.25`. -/
noncomputable def compute_lumpsum_xirr (nd : NavData) : Option ℝ :=
  let days := nd.end_date - nd.start_date
  if days ≤ 0 then none
  else some (cagrOf nd.start_nav nd.end_nav days)

/-- `process_scheme` on one scheme.  `fetch` is the outcome of
`fetch_nav_history` inside the worker's `try`: `.error` models a raised
exception (network or parse failure), which the handler converts to
`None`; `.ok none` models an empty NAV window.  The IDCW name filter
runs before the `try`, but cannot raise on a string name.  Rejections:
bad name, fetch failure, no data, stale latest NAV (older than
`as_of - 5` days), both ISINs falsy, or fewer than 5 rounded-up
calendar months of history. -/
noncomputable def process_scheme (s : SchemeInfo)
    (fetch : Except Unit (Option NavData)) (asOf : ℤ) : Option DailyRow :=
  if nameBad s.schemeName then none
  else
    match fetch with
    | .error _ => none
    | .ok none => none
    | .ok (some nd) =>
      if nd.end_date < asOf - 5 then none
      else
        let xirr := compute_lumpsum_xirr nd
        if isinFalsy nd.meta.isin_growth && isinFalsy nd.meta.isin_div_reinvestment then none
        else
          let months := monthsBetween nd.start_date nd.end_date
          if months < 5 then none
          else some
            { schemeCode := s.schemeCode
              schemeName := s.schemeName
              xirr := xirr
              months := months
              isin_growth := nd.meta.isin_growth
              isin_div_reinvestment := nd.meta.isin_div_reinvestment
              latest_nav := nd.end_nav
              latest_nav_date := nd.end_date
              prev_year_nav := nd.start_nav
              prev_year_nav_date := nd.start_date }

/-- The result-collection loop of `daily_mf_report.main`: every
scheme's worker runs `process_scheme`, and exactly the non-`None`
results are appended to `results`. -/
noncomputable def processBatch (schemes : List SchemeInfo)
    (fetch : SchemeInfo → Except Unit (Option NavData)) (asOf : ℤ) : List DailyRow :=
  schemes.filterMap (fun s => process_scheme s (fetch s) asOf)

/-- The decidable acceptance test mirroring `process_scheme`'s rejection
cascade: a scheme contributes a row iff this holds. -/
def schemeAccepted (s : SchemeInfo) (fetch : Except Unit (Option NavData))
    (asOf : ℤ) : Bool :=
  match fetch with
  | .error _ => false
  | .ok none => false
  | .ok (some nd) =>
    !nameBad s.schemeName
      && !decide (nd.end_date < asOf - 5)
      && !(isinFalsy nd.meta.isin_growth && isinFalsy nd.meta.isin_div_reinvestment)
      && !decide (monthsBetween nd.start_date nd.end_date < 5)

/-! ## Helper lemmas -/

theorem length_filterMap_eq_countP {α β : Type} (f : α → Option β) :
    ∀ l : List α, (l.filterMap f).length = l.countP (fun a => (f a).isSome)
  | [] => rfl
  | a :: l => by
    rw [List.filterMap_cons, List.countP_cons]
    cases h : f a <;>
      simp [length_filterMap_eq_countP f l, h]

/-- `process_scheme` yields a row exactly when the decidable acceptance
test `schemeAccepted` passes. -/
theorem isSome_process_scheme (s : SchemeInfo)
    (fetch : Except Unit (Option NavData)) (asOf : ℤ) :
    (process_scheme s fetch asOf).isSome = schemeAccepted s fetch asOf := by
  by_cases hn : nameBad s.schemeName
  · cases fetch with
    | error e => simp [process_scheme, schemeAccepted, hn]
    | ok o =>
      cases o with
      | none => simp [process_scheme, schemeAccepted, hn]
      | some nd => simp [process_scheme, schemeAccepted, hn]
  · cases fetch with
    | error e => simp [process_scheme, schemeAccepted, hn]
    | ok o =>
      cases o with
      | none => simp [process_scheme, schemeAccepted, hn]
      | some nd =>
        by_cases hstale : nd.end_date < asOf - 5
        · simp [process_scheme, schemeAccepted, hn, hstale]
        · by_cases hisin :
            (isinFalsy nd.meta.isin_growth && isinFalsy nd.meta.isin_div_reinvestment) = true
          · simp [process_scheme, schemeAccepted, hn, hstale, hisin]
          · by_cases hm : monthsBetween nd.start_date nd.end_date < 5
            · simp [process_scheme, schemeAccepted, hn, hstale, hisin, hm]
            · simp [process_scheme, schemeAccepted, hn, hstale, hisin, hm]

theorem sortByDate_perm (l : List (ℤ × ℚ)) : (sortByDate l).Perm l :=
  List.perm_insertionSort _ l

theorem sortByDate_sorted (l : List (ℤ × ℚ)) :
    (sortByDate l).Pairwise (fun a b => a.1 ≤ b.1) := by
  haveI : IsTotal (ℤ × ℚ) (fun a b => a.1 ≤ b.1) := ⟨fun a b => le_total _ _⟩
  haveI : IsTrans (ℤ × ℚ) (fun a b => a.1 ≤ b.1) := ⟨fun _ _ _ h1 h2 => le_trans h1 h2⟩
  exact List.sorted_insertionSort _ l

/-! ## Claims -/

/-- C9: whenever no rolling window is accepted, `calculate_rolling_returns`
returns exactly the triple `(0, 0, 0)` (mean 0, standard deviation 0,
consistency 0), not an empty or sentinel result. -/
theorem rolling_returns_no_window_zero_triple (navs : List (ℤ × ℚ)) (w : ℤ)
    (h : rollingWindows navs w = []) :
    calculate_rolling_returns navs w = (0, 0, 0) := by
  simp [calculate_rolling_returns, rollingCagrList, h]

theorem rolling_returns_no_window_zero_triple_witness :
    rollingWindows [((0 : ℤ), (10 : ℚ))] 3 = [] ∧
      calculate_rolling_returns [((0 : ℤ), (10 : ℚ))] 3 = (0, 0, 0) :=
  ⟨by decide, rolling_returns_no_window_zero_triple _ 3 (by decide)⟩

/-- C5: the consistency score returned by `calculate_rolling_returns`
equals `clamp(1 - std/mean, 0, 1)` of the accepted rolling CAGR samples
when their mean is strictly positive and `0` otherwise, and consequently
always lies in `[0, 1]`. -/
theorem rolling_consistency_clamped (navs : List (ℤ × ℚ)) (w : ℤ) :
    (calculate_rolling_returns navs w).2.2 =
      (if 0 < meanR (rollingCagrList navs w) then
        max 0 (min 1 (1 - stdR (rollingCagrList navs w) / meanR (rollingCagrList navs w)))
      else 0)
    ∧ 0 ≤ (calculate_rolling_returns navs w).2.2
    ∧ (calculate_rolling_returns navs w).2.2 ≤ 1 := by
  have hval : (calculate_rolling_returns navs w).2.2 =
      (if 0 < meanR (rollingCagrList navs w) then
        max 0 (min 1 (1 - stdR (rollingCagrList navs w) / meanR (rollingCagrList navs w)))
      else 0) := by
    by_cases hc : (rollingCagrList navs w).isEmpty
    · have hnil : rollingCagrList navs w = [] := by
        simpa [List.isEmpty_iff] using hc
      simp [calculate_rolling_returns, hnil, meanR]
    · simp [calculate_rolling_returns, hc]
  refine ⟨hval, ?_, ?_⟩
  · rw [hval]
    split
    · exact le_max_left 0 _
    · exact le_refl 0
  · rw [hval]
    split
    · exact max_le zero_le_one (min_le_left 1 _)
    · exact zero_le_one

/-- C6: `calculate_beta` returns exactly `1.0` when fewer than 12
aligned (common-date) monthly points exist, regardless of the values,
and also whenever the aligned benchmark variance is `0`. -/
theorem beta_default_one (fund bench : List (ℤ × ℚ)) :
    ((alignedPairs fund bench).length < 12 → calculate_beta fund bench = 1)
    ∧ (sampleVar ((alignedPairs fund bench).map (fun p => p.2)) = 0 →
        calculate_beta fund bench = 1) := by
  constructor
  · intro h
    simp [calculate_beta, h]
  · intro h
    by_cases hlen : (alignedPairs fund bench).length < 12
    · simp [calculate_beta, hlen]
    · simp [calculate_beta, hlen, h]

def fundMonthly12 : List (ℤ × ℚ) :=
  [(0, 1), (1, 2), (2, 3), (3, 4), (4, 5), (5, 6), (6, 7), (7, 8),
   (8, 9), (9, 10), (10, 11), (11, 12)]

def benchMonthly12 : List (ℤ × ℚ) :=
  [(0, 1), (1, 1), (2, 1), (3, 1), (4, 1), (5, 1), (6, 1), (7, 1),
   (8, 1), (9, 1), (10, 1), (11, 1)]

theorem beta_default_one_witness :
    calculate_beta [] [] = 1 ∧ calculate_beta fundMonthly12 benchMonthly12 = 1 :=
  ⟨(beta_default_one [] []).1 (by norm_num [alignedPairs, sortByDate]),
   (beta_default_one fundMonthly12 benchMonthly12).2 (by
      norm_num [sampleVar, meanQ, alignedPairs, sortByDate, fundMonthly12, benchMonthly12,
        List.filterMap_cons, List.find?_cons_of_pos, List.find?_cons_of_neg, List.find?_nil])⟩

/-- C7: the seven scoring weights sum exactly to `1`, and every
composite score computed from seven normalized sub-metrics in `[0, 1]`
lies in `[0, 1]`. -/
theorem weights_sum_one_and_score_bounded :
    (DEFAULT_WEIGHTS.rolling_consistency + DEFAULT_WEIGHTS.sharpe
      + DEFAULT_WEIGHTS.upside_capture + DEFAULT_WEIGHTS.downside_capture
      + DEFAULT_WEIGHTS.benchmark_outperf + DEFAULT_WEIGHTS.beta_stability
      + DEFAULT_WEIGHTS.ter = 1)
    ∧ ∀ n1 n2 n3 n4 n5 n6 n7 : ℚ,
        0 ≤ n1 → n1 ≤ 1 → 0 ≤ n2 → n2 ≤ 1 → 0 ≤ n3 → n3 ≤ 1 →
        0 ≤ n4 → n4 ≤ 1 → 0 ≤ n5 → n5 ≤ 1 → 0 ≤ n6 → n6 ≤ 1 →
        0 ≤ n7 → n7 ≤ 1 →
        0 ≤ finalScore DEFAULT_WEIGHTS n1 n2 n3 n4 n5 n6 n7
          ∧ finalScore DEFAULT_WEIGHTS n1 n2 n3 n4 n5 n6 n7 ≤ 1 := by
  constructor
  · norm_num [DEFAULT_WEIGHTS]
  · intro n1 n2 n3 n4 n5 n6 n7 h1 h1' h2 h2' h3 h3' h4 h4' h5 h5' h6 h6' h7 h7'
    constructor
    · simp only [finalScore, DEFAULT_WEIGHTS]
      norm_num
      nlinarith
    · simp only [finalScore, DEFAULT_WEIGHTS]
      norm_num
      nlinarith

theorem weights_sum_one_and_score_bounded_witness :
    0 ≤ finalScore DEFAULT_WEIGHTS (1/2) (1/2) (1/2) (1/2) (1/2) (1/2) (1/2)
      ∧ finalScore DEFAULT_WEIGHTS (1/2) (1/2) (1/2) (1/2) (1/2) (1/2) (1/2) ≤ 1 :=
  weights_sum_one_and_score_bounded.2 (1/2) (1/2) (1/2) (1/2) (1/2) (1/2) (1/2)
    (by norm_num) (by norm_num) (by norm_num) (by norm_num) (by norm_num)
    (by norm_num) (by norm_num) (by norm_num) (by norm_num) (by norm_num)
    (by norm_num) (by norm_num) (by norm_num) (by norm_num)

/-- C10: `process_scheme` rejects (returns `none` for) schemes beyond
the spec's rejection list: a scheme name containing `"idcw"` or
`"income distribution"` (case-insensitively), metadata whose
`isin_growth` and `isin_div_reinvestment` are both absent/empty, or a
filtered NAV window spanning fewer than 5 rounded-up calendar months
each yield `none`, so the scheme contributes no row. -/
theorem process_scheme_extra_rejections (s : SchemeInfo)
    (fetch : Except Unit (Option NavData)) (asOf : ℤ) (nd : NavData) :
    (nameBad s.schemeName = true → process_scheme s fetch asOf = none)
    ∧ (fetch = .ok (some nd) →
        (isinFalsy nd.meta.isin_growth && isinFalsy nd.meta.isin_div_reinvestment) = true →
        process_scheme s fetch asOf = none)
    ∧ (fetch = .ok (some nd) →
        monthsBetween nd.start_date nd.end_date < 5 →
        process_scheme s fetch asOf = none) := by
  refine ⟨fun hn => by simp [process_scheme, hn], fun hf hisin => ?_, fun hf hm => ?_⟩
  · subst hf
    by_cases hn : nameBad s.schemeName
    · simp [process_scheme, hn]
    · by_cases hstale : nd.end_date < asOf - 5
      · simp [process_scheme, hn, hstale]
      · simp [process_scheme, hn, hstale, hisin]
  · subst hf
    by_cases hn : nameBad s.schemeName
    · simp [process_scheme, hn]
    · by_cases hstale : nd.end_date < asOf - 5
      · simp [process_scheme, hn, hstale]
      · by_cases hisin :
          (isinFalsy nd.meta.isin_growth && isinFalsy nd.meta.isin_div_reinvestment) = true
        · simp [process_scheme, hn, hstale, hisin]
        · simp [process_scheme, hn, hstale, hisin, hm]

def ndNoIsin : NavData :=
  { meta := { isin_growth := none, isin_div_reinvestment := some ""
              fund_house := none, scheme_type := none, scheme_category := none }
    start_date := 19600, start_nav := 10, end_date := 19998, end_nav := 12 }

def ndShortWindow : NavData :=
  { meta := { isin_growth := some "INF200K01158", isin_div_reinvestment := none
              fund_house := none, scheme_type := none, scheme_category := none }
    start_date := 19990, start_nav := 10, end_date := 19998, end_nav := 11 }

theorem process_scheme_extra_rejections_witness :
    process_scheme ⟨77, "Axis Bluechip Fund Direct IDCW"⟩ (.ok none) 20000 = none
    ∧ process_scheme ⟨78, "Fund B Direct Growth"⟩ (.ok (some ndNoIsin)) 20000 = none
    ∧ process_scheme ⟨79, "Fund C Direct Growth"⟩ (.ok (some ndShortWindow)) 20000 = none :=
  ⟨(process_scheme_extra_rejections _ _ 20000 ndNoIsin).1 (by decide),
   (process_scheme_extra_rejections _ _ 20000 ndNoIsin).2.1 rfl (by decide),
   (process_scheme_extra_rejections _ _ 20000 ndShortWindow).2.2 rfl (by decide)⟩

/-- C8: the per-fund evaluation never propagates an exception — a fetch
that throws is converted to the rejected value `none` — and the batch
collection keeps exactly the accepted schemes, so a batch in which some
fetches throw still yields one row per surviving scheme. -/
theorem process_batch_isolates_failures (schemes : List SchemeInfo)
    (fetch : SchemeInfo → Except Unit (Option NavData)) (asOf : ℤ) :
    (∀ s e, fetch s = .error e → process_scheme s (fetch s) asOf = none)
    ∧ (processBatch schemes fetch asOf).length
        = schemes.countP (fun s => schemeAccepted s (fetch s) asOf) := by
  constructor
  · intro s e he
    rw [he]
    by_cases hn : nameBad s.schemeName <;> simp [process_scheme, hn]
  · rw [processBatch, length_filterMap_eq_countP]
    refine List.countP_congr (fun s _ => ?_)
    rw [isSome_process_scheme]

def navGood : NavData :=
  { meta := { isin_growth := some "INF846K01131", isin_div_reinvestment := none
              fund_house := none, scheme_type := none, scheme_category := none }
    start_date := 19600, start_nav := 10, end_date := 19998, end_nav := 12 }

def tenSchemes : List SchemeInfo :=
  [⟨0, "Fund 0 Direct Growth"⟩, ⟨1, "Fund 1 Direct Growth"⟩, ⟨2, "Fund 2 Direct Growth"⟩,
   ⟨3, "Fund 3 Direct Growth"⟩, ⟨4, "Fund 4 Direct Growth"⟩, ⟨5, "Fund 5 Direct Growth"⟩,
   ⟨6, "Fund 6 Direct Growth"⟩, ⟨7, "Fund 7 Direct Growth"⟩, ⟨8, "Fund 8 Direct Growth"⟩,
   ⟨9, "Fund 9 Direct Growth"⟩]

/-- Three of the ten fetches raise; the other seven return clean data. -/
def fetchTen (s : SchemeInfo) : Except Unit (Option NavData) :=
  if s.schemeCode < 3 then .error () else .ok (some navGood)

theorem process_batch_isolates_failures_witness :
    process_scheme ⟨0, "Fund 0 Direct Growth"⟩ (fetchTen ⟨0, "Fund 0 Direct Growth"⟩) 20000 = none
    ∧ (processBatch tenSchemes fetchTen 20000).length = 7 :=
  ⟨(process_batch_isolates_failures tenSchemes fetchTen 20000).1 _ () rfl,
   ((process_batch_isolates_failures tenSchemes fetchTen 20000).2).trans (by decide)⟩

/-- C3 (counterexample): the claim that every surviving point of the
screener's sanitized series is dated at most the as-of date is false —
`fetch_full_nav_history` applies no upper date bound, so a positive
point dated after the as-of date survives sanitation. -/
theorem sanitize_upper_bound_counterexample :
    ¬ (∀ p ∈ sanitizeScreener [((20001 : ℤ), some (10 : ℚ))] 20000 5, p.1 ≤ 20000) := by
  decide

/-- C3 (amended): the screener's sanitized series contains exactly the
parsed points with positive price whose date is at least
`as_of - lookback * 365` days — with **no upper bound** at the as-of
date — sorted ascending by date; the daily report's
`fetch_nav_history` window does additionally apply the upper bound
`date ≤ as_of` (its lower bound is `as_of` minus one calendar year). -/
theorem sanitize_window_characterization (raw : List (ℤ × Option ℚ)) (asOf L : ℤ) :
    (sanitizeScreener raw asOf L).Perm
      ((parseRows raw).filter (fun p => decide (0 < p.2) && decide (asOf - L * 365 ≤ p.1)))
    ∧ (sanitizeScreener raw asOf L).Pairwise (fun a b => a.1 ≤ b.1)
    ∧ (sanitizeDaily raw asOf).Perm
      ((parseRows raw).filter (fun p =>
        decide (0 < p.2) && (decide (addYears asOf (-1) ≤ p.1) && decide (p.1 ≤ asOf))))
    ∧ (sanitizeDaily raw asOf).Pairwise (fun a b => a.1 ≤ b.1) := by
  refine ⟨?_, ?_, ?_, ?_⟩
  · refine (List.Perm.filter _ (sortByDate_perm _)).trans ?_
    rw [List.filter_filter]
    exact List.Perm.of_eq (List.filter_congr (fun a _ => Bool.and_comm _ _))
  · exact List.Pairwise.filter _ (sortByDate_sorted _)
  · refine (sortByDate_perm _).trans ?_
    rw [List.filter_filter]
    exact List.Perm.of_eq (List.filter_congr (fun a _ => Bool.and_comm _ _))
  · exact sortByDate_sorted _

/-- C4: on a monotonically increasing, date-sorted price series that
spans exactly one full rolling window (the first start date closes at
observation `f`, the second start date finds no closing observation)
with at least 300 elapsed days, `calculate_rolling_returns` produces
exactly one CAGR sample, equal to
`(end_price / start_price) ^ (365.25 / elapsed_days) - 1`. -/
theorem rolling_single_window_cagr
    (p0 f : ℤ × ℚ) (rest tl : List (ℤ × ℚ)) (w : ℤ)
    (hsorted : (p0 :: rest).Pairwise (fun a b : ℤ × ℚ => a.1 ≤ b.1))
    (hmono : (p0 :: rest).Pairwise (fun a b : ℤ × ℚ => a.2 ≤ b.2))
    (hpos : ∀ q ∈ p0 :: rest, 0 < q.2)
    (hf : (p0 :: rest).filter (fun q => decide (addYears p0.1 w ≤ q.1)) = f :: tl)
    (hdays : 300 ≤ f.1 - p0.1)
    (hnext : (rest.head?.all fun q =>
        ((p0 :: rest).filter (fun r => decide (addYears q.1 w ≤ r.1))).isEmpty) = true) :
    rollingCagrList (p0 :: rest) w
      = [((f.2 : ℝ) / (p0.2 : ℝ)) ^ ((365.25 : ℝ) / ((f.1 - p0.1 : ℤ) : ℝ)) - 1] := by
  have hsort : sortByDate (p0 :: rest) = p0 :: rest :=
    List.Sorted.insertionSort_eq hsorted
  have h0 : ¬ (p0.2 ≤ 0) := not_le.mpr (hpos p0 (List.mem_cons_self _ _))
  have hd : ¬ (f.1 - p0.1 < 300) := not_lt.mpr hdays
  have hrest : rollingLoop (p0 :: rest) w rest = [] := by
    cases rest with
    | nil => rfl
    | cons q rest2 =>
      have hq : ((p0 :: q :: rest2).filter (fun r => decide (addYears q.1 w ≤ r.1))) = [] := by
        have h1 : ((p0 :: q :: rest2).filter
            (fun r => decide (addYears q.1 w ≤ r.1))).isEmpty = true := by
          simpa [Option.all] using hnext
        simpa [List.isEmpty_iff] using h1
      simp only [rollingLoop]
      rw [hq]
  have hwin : rollingWindows (p0 :: rest) w = [(p0.2, f.2, f.1 - p0.1)] := by
    rw [rollingWindows, hsort]
    simp only [rollingLoop]
    rw [hf]
    simp only [if_neg h0, if_neg hd, hrest]
  rw [rollingCagrList, hwin]
  simp only [List.map_cons, List.map_nil, cagrOf]
  rw [one_div_div]

theorem rolling_single_window_cagr_witness :
    rollingCagrList [((18262 : ℤ), (10 : ℚ)), (19362, 20)] 3
      = [(((20 : ℚ) : ℝ) / ((10 : ℚ) : ℝ))
          ^ ((365.25 : ℝ) / (((19362 : ℤ) - 18262 : ℤ) : ℝ)) - 1] :=
  rolling_single_window_cagr (18262, 10) (19362, 20) [(19362, 20)] [] 3
    (by decide) (by decide) (by decide) (by decide) (by decide) (by decide)

/-! ### The descending sort: sortedness and permutation.
These two properties do not depend on the base sort's stability, so the
program's unstable default quicksort shares them; no tie-order property
of `sortValuesDesc` is stated, because the program guarantees none. -/

theorem sortValuesDesc_sorted {α : Type} (key : α → ℚ) (l : List α) :
    (sortValuesDesc key l).Pairwise (fun a b => key b ≤ key a) := by
  rw [sortValuesDesc, List.pairwise_reverse]
  haveI : IsTotal α (fun a b => key a ≤ key b) := ⟨fun a b => le_total _ _⟩
  haveI : IsTrans α (fun a b => key a ≤ key b) := ⟨fun _ _ _ h1 h2 => le_trans h1 h2⟩
  exact List.sorted_insertionSort _ _

theorem sortValuesDesc_perm {α : Type} (key : α → ℚ) (l : List α) :
    (sortValuesDesc key l).Perm l := by
  rw [sortValuesDesc]
  exact (List.reverse_perm _).trans ((List.perm_insertionSort _ _).trans (List.reverse_perm _))

/-- Eighteen metric rows with identical metric values and distinct
identities: more rows than numpy introsort's stable insertion-sort
threshold, with every composite score tied. -/
def failingTieBatch : List MetricRow :=
  [⟨0, 1, 1, 1, 1, 1, 1, 1⟩, ⟨1, 1, 1, 1, 1, 1, 1, 1⟩, ⟨2, 1, 1, 1, 1, 1, 1, 1⟩,
   ⟨3, 1, 1, 1, 1, 1, 1, 1⟩, ⟨4, 1, 1, 1, 1, 1, 1, 1⟩, ⟨5, 1, 1, 1, 1, 1, 1, 1⟩,
   ⟨6, 1, 1, 1, 1, 1, 1, 1⟩, ⟨7, 1, 1, 1, 1, 1, 1, 1⟩, ⟨8, 1, 1, 1, 1, 1, 1, 1⟩,
   ⟨9, 1, 1, 1, 1, 1, 1, 1⟩, ⟨10, 1, 1, 1, 1, 1, 1, 1⟩, ⟨11, 1, 1, 1, 1, 1, 1, 1⟩,
   ⟨12, 1, 1, 1, 1, 1, 1, 1⟩, ⟨13, 1, 1, 1, 1, 1, 1, 1⟩, ⟨14, 1, 1, 1, 1, 1, 1, 1⟩,
   ⟨15, 1, 1, 1, 1, 1, 1, 1⟩, ⟨16, 1, 1, 1, 1, 1, 1, 1⟩, ⟨17, 1, 1, 1, 1, 1, 1, 1⟩]

/-- C1 (the code at the failing input): on the 18-row batch of
identical metric values, every normalized column is constant, so the
scoring phase gives every row the composite score `1/2` — the entire
batch is one tie.  The output order of these rows is therefore decided
entirely by the tie behaviour of
`sort_values("final_score", ascending=False)`, whose default numpy
quicksort (introsort) permutes equal keys above its ~16-element
insertion-sort threshold (the first partition step unconditionally
swaps the middle element's index), so the input-order tie-breaking
asserted by the claim and by spec §4.5 is not guaranteed by the code. -/
theorem final_ranking_failing_input_all_tied :
    (scoredRows DEFAULT_WEIGHTS failingTieBatch).map Prod.snd
      = [1/2, 1/2, 1/2, 1/2, 1/2, 1/2, 1/2, 1/2, 1/2,
         1/2, 1/2, 1/2, 1/2, 1/2, 1/2, 1/2, 1/2, (1/2 : ℚ)] := by
  norm_num [failingTieBatch, scoredRows, colMin, colMax, normVal, finalScore,
    DEFAULT_WEIGHTS, min_self, max_self]

theorem outperfLoop_eq_spec (fund bench : List (ℤ × ℚ)) (w : ℤ) :
    ∀ l : List (ℤ × ℚ),
      outperfLoop fund bench w l
        = (((l.takeWhile (closingB fund bench w)).filterMap
              (acceptWindow fund bench w)).countP (fun t => decide (outperfWin t)),
           ((l.takeWhile (closingB fund bench w)).filterMap
              (acceptWindow fund bench w)).length)
  | [] => by simp [outperfLoop]
  | p :: rest => by
    have IH := outperfLoop_eq_spec fund bench w rest
    rcases hff : fund.filter (fun q => decide (addYears p.1 w ≤ q.1)) with _ | ⟨ff, ffs⟩
    · have hcl : closingB fund bench w p = false := by simp [closingB, hff]
      rw [List.takeWhile_cons_of_neg (by simp [hcl])]
      simp only [outperfLoop]
      rw [hff]
      simp
    · rcases hbf : bench.filter (fun q => decide (addYears p.1 w ≤ q.1)) with _ | ⟨bf, bfs⟩
      · have hcl : closingB fund bench w p = false := by simp [closingB, hbf]
        rw [List.takeWhile_cons_of_neg (by simp [hcl])]
        simp only [outperfLoop]
        rw [hff, hbf]
        simp
      · rcases hbs : bench.filter (fun q => decide (p.1 ≤ q.1)) with _ | ⟨bs, bss⟩
        · have hcl : closingB fund bench w p = false := by simp [closingB, hbs]
          rw [List.takeWhile_cons_of_neg (by simp [hcl])]
          simp only [outperfLoop]
          rw [hff, hbf, hbs]
          simp
        · have hcl : closingB fund bench w p = true := by
            simp [closingB, hff, hbf, hbs]
          have hacc : acceptWindow fund bench w p
              = (if p.2 ≤ 0 ∨ bs.2 ≤ 0 then none
                 else if ff.1 - p.1 < 300 then none
                 else some ⟨p.2, ff.2, bs.2, bf.2, ff.1 - p.1⟩) := by
            simp only [acceptWindow]
            rw [hff, hbf, hbs]
          rw [List.takeWhile_cons_of_pos (by simp [hcl])]
          simp only [outperfLoop]
          rw [hff, hbf, hbs]
          rw [List.filterMap_cons, hacc]
          by_cases h1 : p.2 ≤ 0 ∨ bs.2 ≤ 0
          · simp [h1, IH]
          · by_cases h2 : ff.1 - p.1 < 300
            · simp [h1, h2, IH]
            · by_cases hw : outperfWin ⟨p.2, ff.2, bs.2, bf.2, ff.1 - p.1⟩
              · simp [h1, h2, hw, IH, List.countP_cons]
              · simp [h1, h2, hw, IH, List.countP_cons]

/-- C2: `calculate_benchmark_outperformance` walks the fund's
observation dates as window starts with the same 300-day
minimum-elapsed guard as rolling CAGR (a rejected start is skipped,
later starts are still scanned), compares the fund's CAGR of each
accepted window with the benchmark's CAGR over the same window dates,
and returns wins/total — exactly `0.5` when no window qualifies — as
stated by the spec-side formulation `spec_outperformance_fraction`. -/
theorem benchmark_outperformance_matches_spec
    (fundRaw benchRaw : List (ℤ × ℚ)) (w : ℤ) :
    calculate_benchmark_outperformance fundRaw benchRaw w
      = spec_outperformance_fraction fundRaw benchRaw w := by
  simp only [calculate_benchmark_outperformance, spec_outperformance_fraction,
    specOutperfWindows]
  rw [outperfLoop_eq_spec]
  set L := ((sortByDate fundRaw).takeWhile
      (closingB (sortByDate fundRaw) (sortByDate benchRaw) w)).filterMap
      (acceptWindow (sortByDate fundRaw) (sortByDate benchRaw) w) with hL
  cases L with
  | nil => simp
  | cons t ts => simp

end MFHelper
